import Mathlib

/-!
Shallow embedding of the stock-analysis dashboard (stock.py) and proofs about
its specification claims.

Modelling conventions:
* Python dict payloads become association lists over a value type PyVal
  (int / float / str); the float case carries an exact rational, and every
  numeric formatting routine is computed from the rational by integer
  arithmetic only, mirroring the Python format specs exactly on finite
  decimals.
* Each external call (history, info, recommendations, news search, text
  generation) is modelled by its result, an Except value: .ok is a normal
  return and .error e is a raised exception carrying its message.
* Streamlit rendering calls are modelled by the data they would display
  (error messages, headline and reason strings).
-/

namespace StockApp

/-- A Python value as it occurs in the provider payloads: an int, a float
(held as an exact rational), or a string. -/
inductive PyVal where
  | int (n : ℤ)
  | float (q : ℚ)
  | str (s : String)
  deriving DecidableEq

/-- Python truthiness of a payload value: 0, 0.0 and the empty string are
falsy, everything else is truthy. -/
def PyVal.truthy : PyVal → Bool
  | .int n => n != 0
  | .float q => q.num != 0
  | .str s => s != ""

/-- The info payload returned by the market-data provider: a dict from field
names to values, modelled as an association list. -/
abbrev Info := List (String × PyVal)

/-- Python dict lookup without a default: info.get(k) returning None when the
key is absent. -/
def lookupInfo (info : Info) (k : String) : Option PyVal :=
  (info.find? (fun p => p.1 == k)).map (fun p => p.2)

/-- Python dict lookup with a default: info.get(k, d). -/
def getValD (info : Info) (k : String) (d : PyVal) : PyVal :=
  (lookupInfo info k).getD d

/-! ### Numeric formatting (Python format specs, exact over rationals) -/

/-- Insert a comma after every three characters of a digit list given least
significant digit first (the reversed decimal digits). -/
def group3Rev : List Char → List Char
  | a :: b :: c :: d :: rest => a :: b :: c :: ',' :: group3Rev (d :: rest)
  | l => l

/-- Thousands-separated decimal rendering of a natural number, as produced by
the Python comma format spec on a nonnegative int. -/
def natComma (n : ℕ) : String :=
  String.mk ((group3Rev (Nat.toDigits 10 n).reverse).reverse)

/-- Thousands-separated decimal rendering of an integer. -/
def intComma (n : ℤ) : String :=
  (if n < 0 then "-" else "") ++ natComma n.natAbs

/-- Decimal digits of the fraction rem/den by long division, producing at most
fuel digits and stopping when the remainder reaches zero.  Every float value
appearing in this development has a finite decimal expansion, so the fuel is
never exhausted on reachable inputs. -/
def fracDigits (den : ℕ) : ℕ → ℕ → String
  | 0, _ => ""
  | _ + 1, 0 => ""
  | fuel + 1, rem =>
    String.singleton (Char.ofNat (48 + rem * 10 / den)) ++
      fracDigits den fuel (rem * 10 % den)

/-- Plain decimal rendering of a float value q (Python str of a float with a
finite decimal expansion): integer part, a dot, then the fraction digits, with
a trailing 0 when the value is integral. -/
def floatPlain (q : ℚ) : String :=
  (if q.num < 0 then "-" else "") ++ toString (q.num.natAbs / q.den) ++ "." ++
    (if q.num.natAbs % q.den = 0 then "0"
     else fracDigits q.den 30 (q.num.natAbs % q.den))

/-- Comma format spec applied to a float value: like floatPlain but with a
thousands-separated integer part. -/
def floatComma (q : ℚ) : String :=
  (if q.num < 0 then "-" else "") ++ natComma (q.num.natAbs / q.den) ++ "." ++
    (if q.num.natAbs % q.den = 0 then "0"
     else fracDigits q.den 30 (q.num.natAbs % q.den))

/-- The Python fixed-point format spec with two decimals (the .2f spec)
applied to the rational num/den, den positive: round half to even at the
second decimal, then print sign, integer part, a dot, and exactly two
fraction digits.  The result is invariant under common factors of num and
den, so the representation need not be reduced. -/
def fixed2 (num : ℤ) (den : ℕ) : String :=
  let d : ℤ := (den : ℤ)
  let n : ℤ := num * 100
  let f : ℤ := Int.fdiv n d
  let rem : ℤ := n - f * d
  let c : ℤ := if 2 * rem < d then f
               else if d < 2 * rem then f + 1
               else if f % 2 = 0 then f else f + 1
  let a : ℕ := c.natAbs
  (if c < 0 then "-" else "") ++ toString (a / 100) ++ "." ++
    (if a % 100 < 10 then "0" else "") ++ toString (a % 100)

/-- The exact value of formatting q * 100 with the .2f spec: as a rational,
q * 100 is (q.num * 100) / q.den, and fixed2 does not require a reduced
fraction. -/
def pyFixed2Times100 (q : ℚ) : String :=
  fixed2 (q.num * 100) q.den

/-! ### Python string operations, made kernel-computable -/

/-- Characters stripped by the Python strip method with no argument. -/
def isPySpace (c : Char) : Bool :=
  c == ' ' || c == '\t' || c == '\n' || c == '\r' || c == '\x0b' || c == '\x0c'

/-- The Python strip method: remove leading and trailing whitespace. -/
def pyStrip (s : String) : String :=
  String.mk (((s.data.dropWhile isPySpace).reverse.dropWhile isPySpace).reverse)

/-- Splitting on the newline character, accumulator-style; mirrors the Python
split method with a one-character separator, keeping empty pieces. -/
def splitLinesAux : List Char → List Char → List String
  | acc, [] => [String.mk acc.reverse]
  | acc, c :: cs =>
    if c = '\n' then String.mk acc.reverse :: splitLinesAux [] cs
    else splitLinesAux (c :: acc) cs

/-- Python split on a newline separator. -/
def pySplitNl (s : String) : List String :=
  splitLinesAux [] s.data

/-- Bool test that pat starts the char list l. -/
def listHasPre : List Char → List Char → Bool
  | [], _ => true
  | _ :: _, [] => false
  | p :: ps, c :: cs => p == c && listHasPre ps cs

/-- Bool test that pat occurs contiguously inside the char list l. -/
def listHasSub : List Char → List Char → Bool
  | pat, [] => listHasPre pat []
  | pat, c :: cs => listHasPre pat (c :: cs) || listHasSub pat cs

/-- The Python substring containment test: pat in s. -/
def pyContainsSub (s pat : String) : Bool :=
  listHasSub pat.data s.data

/-! ### The stock snapshot dict built by fetch_stock_data -/

/-- One analyst recommendation row; its content is opaque to the program,
which only slices the series, so a row is modelled as a string. -/
abbrev RecRow := String

/-- The historical OHLCV series; opaque pass-through data for fetch. -/
abbrev Hist := List String

/-- One news article as returned by the search provider: a dict of string
fields (title, source, url, ...). -/
abbrev NewsItem := List (String × String)

/-- Dict lookup with default on a news article. -/
def newsGet (a : NewsItem) (k d : String) : String :=
  ((a.find? (fun p => p.1 == k)).map (fun p => p.2)).getD d

/-- The dict returned by fetch_stock_data (stock.py lines 57-77), with one
field per dict entry.  Raw pass-through fields keep type PyVal (absent source
fields already replaced by the str N/A sentinel); formatted fields are
strings. -/
structure Snapshot where
  companyName : PyVal
  sector : PyVal
  industry : PyVal
  marketCap : String
  currentPrice : PyVal
  week52High : PyVal
  week52Low : PyVal
  peRatio : PyVal
  dividendYield : String
  roe : String
  recommendations : List RecRow
  histData : Hist
  news : List NewsItem
  deriving DecidableEq

/-- The pandas tail operation: the last n rows of a series, in order. -/
def dfTail (n : ℕ) (l : List α) : List α :=
  l.drop (l.length - n)

/-- Line 74: recommendations.tail(5) if not recommendations.empty else an
empty frame. -/
def recommendationsField (recs : List RecRow) : List RecRow :=
  if recs.isEmpty then [] else dfTail 5 recs

/-- Line 62: the f-string interpolation of info.get(marketCap, N/A) under the
comma format spec, prefixed by a dollar sign.  When the key is absent the
default is the string N/A, and CPython rejects the comma format spec for str
values with a ValueError (message: Cannot specify comma with s); the
exception text is returned in the error case. -/
def marketCapStr (info : Info) : Except String String :=
  match getValD info "marketCap" (.str "N/A") with
  | .int n => .ok ("$" ++ intComma n)
  | .float q => .ok ("$" ++ floatComma q)
  | .str _ => .error "Cannot specify , with s"

/-- Lines 71-72: the conditional expression formatting a percentage field.
The condition is the truthiness of info.get(key); only when it holds is the
value multiplied by 100 and formatted with the .2f spec.  A truthy str value
would be repeated 100 times by the Python * operator and then rejected by the
.2f spec with a ValueError; that exception text is returned in the error
case. -/
def pctStr (v : Option PyVal) : Except String String :=
  if (v.map PyVal.truthy).getD false then
    match v with
    | some (.float q) => .ok (pyFixed2Times100 q ++ "%")
    | some (.int n) => .ok (fixed2 (n * 100) 1 ++ "%")
    | some (.str _) => .error "Unknown format code f for object of type str"
    | none => .ok "N/A"
  else .ok "N/A"

/-- A percentage field of the snapshot, read from the info payload. -/
def pctField (info : Info) (k : String) : Except String String :=
  pctStr (lookupInfo info k)

/-- Construction of the snapshot dict (lines 57-77).  Python evaluates the
dict entries in order, so the first formatting exception wins: Market Cap,
then Dividend Yield, then ROE.  An error is the text of the raised exception,
to be caught by the outer handler of fetch_stock_data. -/
def buildSnapshot (info : Info) (histData : Hist) (news : List NewsItem)
    (recs : List RecRow) : Except String Snapshot :=
  match marketCapStr info with
  | .error e => .error e
  | .ok mc =>
    match pctField info "dividendYield" with
    | .error e => .error e
    | .ok dy =>
      match pctField info "returnOnEquity" with
      | .error e => .error e
      | .ok roe =>
        .ok { companyName := getValD info "longName" (.str "N/A")
              sector := getValD info "sector" (.str "N/A")
              industry := getValD info "industry" (.str "N/A")
              marketCap := mc
              currentPrice := getValD info "currentPrice" (.str "N/A")
              week52High := getValD info "fiftyTwoWeekHigh" (.str "N/A")
              week52Low := getValD info "fiftyTwoWeekLow" (.str "N/A")
              peRatio := getValD info "trailingPE" (.str "N/A")
              dividendYield := dy
              roe := roe
              recommendations := recommendationsField recs
              histData := histData
              news := news }

/-- The error reports fetch_stock_data can produce; each constructor carries
the message shown by the st.error call on the corresponding path, and every
one of them makes the function return None (no snapshot). -/
inductive FetchError where
  | noData (ticker : String)
  | infoError (msg : String)
  | unexpected (msg : String)
  deriving DecidableEq

/-- The outcomes of the four external calls made during one fetch: historical
data (line 35), the info payload (line 39), the recommendation rows (line 49)
and the news search (line 55).  An .error value models the call raising an
exception with the given message. -/
structure Env where
  histRes : Except String Hist
  infoRes : Except String Info
  recsRes : Except String (List RecRow)
  newsRes : Except String (List NewsItem)

/-- Lines 48-51: the recommendation rows actually used, with any exception of
the lookup replaced by an empty frame. -/
def recsOf (env : Env) : List RecRow :=
  match env.recsRes with
  | .error _ => []
  | .ok r => r

/-- fetch_stock_data (lines 30-80).  The outer try swallows any exception of
the history fetch, the news search or the dict construction into the generic
unexpected-error report; the inner try around the info lookup reports its own
message; an empty info payload reports the no-data message.  Every error path
returns None, never a partial snapshot. -/
def fetch_stock_data (ticker : String) (env : Env) : Except FetchError Snapshot :=
  match env.histRes with
  | .error e => .error (.unexpected e)
  | .ok histData =>
    match env.infoRes with
    | .error e => .error (.infoError e)
    | .ok info =>
      if info.isEmpty then .error (.noData ticker)
      else
        match env.newsRes with
        | .error e => .error (.unexpected e)
        | .ok news =>
          match buildSnapshot info histData news (recsOf env) with
          | .error e => .error (.unexpected e)
          | .ok snap => .ok snap

/-! ### generate_gemini_analysis and its rendering -/

/-- Python str of a payload value, used by the prompt interpolation. -/
def pyStr : PyVal → String
  | .int n => toString n
  | .float q => floatPlain q
  | .str s => s

/-- The prompt template of lines 90-108, interpolating snapshot fields and
the titles of the top three news articles. -/
def buildPrompt (stock_data : Snapshot) (news : List NewsItem) : String :=
  let newsSummary := String.intercalate "\n"
    ((news.take 3).map (fun a => "Title: " ++ newsGet a "title" "N/A"))
  "Provide a concise stock analysis and decision recommendation based on the following information:\n\n" ++
  "Company Details:\n" ++
  "- Name: " ++ pyStr stock_data.companyName ++ "\n" ++
  "- Sector: " ++ pyStr stock_data.sector ++ "\n" ++
  "- Market Cap: " ++ stock_data.marketCap ++ "\n\n" ++
  "Financial Metrics:\n" ++
  "- Current Price: " ++ pyStr stock_data.currentPrice ++ "\n" ++
  "- P/E Ratio: " ++ pyStr stock_data.peRatio ++ "\n" ++
  "- Dividend Yield: " ++ stock_data.dividendYield ++ "\n\n" ++
  "Recent News Headlines:\n" ++ newsSummary ++ "\n\n" ++
  "Analysis Requirements:\n" ++
  "1. Provide a **clear decision recommendation** (Buy/Hold/Sell) in the first line.\n" ++
  "2. Summarize the **key reasons** for the recommendation in 2-3 bullet points.\n" ++
  "3. Keep the analysis concise and focused on actionable insights."

/-- generate_gemini_analysis (lines 82-119).  The provider argument models
the text-generation call: applied to the prompt it either returns the
response text or raises with a message.  Any exception inside the try block
is converted into the sentinel error string carrying the failure marker. -/
def generate_gemini_analysis (provider : String → Except String String)
    (stock_data : Snapshot) (news : List NewsItem) : String :=
  match provider (buildPrompt stock_data news) with
  | .ok response => response
  | .error e => "❌ Gemini Analysis Error: " ++ e

/-- What the AI-decision section of the page displays: either a success
rendering (a headline panel plus a list of parsed reasons, each of which
st.write prints prefixed by a dash) or an error rendering of the whole
analysis string. -/
inductive Rendered where
  | success (headline : String) (reasons : List String)
  | errorShown (msg : String)
  deriving DecidableEq

/-- The loop of lines 203-205: collect, in order, the stripped form of every
line whose stripped form is nonempty. -/
def collectReasons (lines : List String) : List String :=
  lines.foldl (fun acc l => if pyStrip l != "" then acc ++ [pyStrip l] else acc) []

/-- Lines 197-207: if the analysis string does not contain the failure
marker, render the first line of the newline split as the decision headline
and the subsequent non-blank lines as reasons; otherwise render the whole
string as an error. -/
def display_ai_decision_support (ai_analysis : String) : Rendered :=
  if pyContainsSub ai_analysis "❌" = false then
    .success ((pySplitNl ai_analysis).headD "")
      (collectReasons ((pySplitNl ai_analysis).drop 1))
  else
    .errorShown ai_analysis

/-! ### Concrete inputs used by the claim theorems and witnesses -/

/-- The raw dividend-yield value 0.0123 as an exact rational. -/
def rawDY : ℚ := ⟨123, 10000, by decide, by decide⟩

/-- An info payload missing the marketCap key. -/
def infoNoMarketCap : Info :=
  [("longName", PyVal.str "NVIDIA Corporation"), ("sector", PyVal.str "Technology")]

/-- An environment whose info payload lacks marketCap and whose other calls
all succeed. -/
def envNoMarketCap : Env :=
  { histRes := .ok [], infoRes := .ok infoNoMarketCap,
    recsRes := .ok [], newsRes := .ok [] }

/-- A well-formed info payload with an integer market cap. -/
def infoGood : Info :=
  [("longName", PyVal.str "NVIDIA Corporation"),
   ("marketCap", PyVal.int 123456),
   ("sector", PyVal.str "Technology")]

/-- An environment in which only the recommendations lookup raises. -/
def envRecsFail : Env :=
  { histRes := .ok ["bar1"], infoRes := .ok infoGood,
    recsRes := .error "recs unavailable", newsRes := .ok [[("title", "Up")]] }

/-- The snapshot fetch produces from envRecsFail. -/
def snapRecsFail : Snapshot :=
  { companyName := .str "NVIDIA Corporation", sector := .str "Technology",
    industry := .str "N/A", marketCap := "$123,456",
    currentPrice := .str "N/A", week52High := .str "N/A",
    week52Low := .str "N/A", peRatio := .str "N/A",
    dividendYield := "N/A", roe := "N/A", recommendations := [],
    histData := ["bar1"], news := [[("title", "Up")]] }

/-- An environment whose info payload is the empty dict. -/
def envEmptyInfo : Env :=
  { histRes := .ok [], infoRes := .ok [], recsRes := .ok [], newsRes := .ok [] }

/-- An environment in which only the news search raises. -/
def envNewsFail : Env :=
  { histRes := .ok [], infoRes := .ok infoGood,
    recsRes := .ok [], newsRes := .error "search provider down" }

/-- A provider model whose call always raises. -/
def providerFail : String → Except String String :=
  fun _ => .error "quota exceeded"

/-- A snapshot used only to feed generate_gemini_analysis in witnesses. -/
def sampleSnapshot : Snapshot :=
  { companyName := .str "X", sector := .str "T", industry := .str "I",
    marketCap := "$1", currentPrice := .int 1, week52High := .int 2,
    week52Low := .int 0, peRatio := .str "N/A", dividendYield := "N/A",
    roe := "N/A", recommendations := [], histData := [], news := [] }

/-- Eight analyst rows in chronological order. -/
def recs8 : List RecRow :=
  ["r1", "r2", "r3", "r4", "r5", "r6", "r7", "r8"]

/-! ### Helper lemmas -/

/-- The constant rawDY is the rational 0.0123 of the spec example. -/
lemma rawDY_val : rawDY = 123 / 10000 := by
  rw [rawDY, Rat.mk'_eq_divInt, Rat.divInt_eq_div]
  norm_num

/-- The reason-collecting fold, with an arbitrary accumulator, appends the
stripped non-blank lines in order. -/
lemma foldl_collect (l : List String) :
    ∀ acc : List String,
      l.foldl (fun acc x => if pyStrip x != "" then acc ++ [pyStrip x] else acc) acc =
        acc ++ (l.filter (fun x => pyStrip x != "")).map pyStrip := by
  induction l with
  | nil => intro acc; simp
  | cons x xs ih =>
    intro acc
    cases hb : (pyStrip x != "") with
    | true =>
      rw [List.foldl_cons, ih]
      simp [List.filter_cons, hb, List.append_assoc]
    | false =>
      rw [List.foldl_cons, ih]
      simp [List.filter_cons, hb]

/-- The loop of lines 203-205 produces exactly the stripped non-blank lines,
in order. -/
lemma collectReasons_eq (lines : List String) :
    collectReasons lines = (lines.filter (fun l => pyStrip l != "")).map pyStrip := by
  unfold collectReasons
  simpa using foldl_collect lines []

/-- A char list starting with the marker char contains the marker pattern. -/
lemma listHasSub_marker_head (rest : List Char) :
    listHasSub ['❌'] ('❌' :: rest) = true := by
  unfold listHasSub
  simp [listHasPre]

/-- Every string produced by the failure branch of generate_gemini_analysis
contains the failure marker. -/
lemma marker_in_error_text (e : String) :
    pyContainsSub ("❌ Gemini Analysis Error: " ++ e) "❌" = true := by
  show listHasSub "❌".data ("❌ Gemini Analysis Error: " ++ e).data = true
  rw [String.data_append]
  have hp : "❌".data = ['❌'] := rfl
  have hd : "❌ Gemini Analysis Error: ".data ++ e.data =
      '❌' :: (" Gemini Analysis Error: ".data ++ e.data) := rfl
  rw [hp, hd]
  exact listHasSub_marker_head _

/-- Whenever the dict construction succeeds, the recommendations entry of the
snapshot is the line-74 expression applied to the rows that were passed in. -/
lemma buildSnapshot_recs (info : Info) (histData : Hist) (news : List NewsItem)
    (recs : List RecRow) (snap : Snapshot)
    (h : buildSnapshot info histData news recs = .ok snap) :
    snap.recommendations = recommendationsField recs := by
  unfold buildSnapshot at h
  cases hmc : marketCapStr info with
  | error e => rw [hmc] at h; exact Except.noConfusion h
  | ok mc =>
    rw [hmc] at h
    cases hdy : pctField info "dividendYield" with
    | error e => rw [hdy] at h; exact Except.noConfusion h
    | ok dy =>
      rw [hdy] at h
      cases hroe : pctField info "returnOnEquity" with
      | error e => rw [hroe] at h; exact Except.noConfusion h
      | ok roe =>
        rw [hroe] at h
        cases h
        rfl

/-- A nonempty info payload fails the line-40 emptiness test. -/
lemma isEmpty_false_of_ne (info : Info) (h : info ≠ []) :
    info.isEmpty = false := by
  cases info with
  | nil => exact absurd rfl h
  | cons a l => rfl

/-! ### Claim theorems -/

/-- C1: the invariant that an absent source field becomes the N/A marker in
the snapshot is broken by the Market Cap field.  On an info payload with no
marketCap key the default is the string N/A, CPython rejects the comma format
spec for str values with a ValueError, the outer handler of fetch_stock_data
catches it, and fetch returns the generic unexpected-error report and no
snapshot at all, instead of a snapshot whose Market Cap field is N/A. -/
theorem C1_absent_marketCap_aborts_fetch :
    fetch_stock_data "NVDA" envNoMarketCap =
      .error (.unexpected "Cannot specify , with s") := by
  rfl

/-- C2: every failure of the text-generation call yields a string containing
the literal failure marker; the presentation layer renders any string
containing the marker through the error path, and any string without it
through the success path, regardless of the rest of its content. -/
theorem C2_failure_marker_dichotomy
    (provider : String → Except String String) (stock_data : Snapshot)
    (news : List NewsItem) (e s t : String)
    (hfail : provider (buildPrompt stock_data news) = .error e)
    (hs : pyContainsSub s "❌" = true)
    (ht : pyContainsSub t "❌" = false) :
    pyContainsSub (generate_gemini_analysis provider stock_data news) "❌" = true ∧
    display_ai_decision_support s = .errorShown s ∧
    ∃ headline reasons,
      display_ai_decision_support t = .success headline reasons := by
  refine ⟨?_, ?_, ?_⟩
  · unfold generate_gemini_analysis
    rw [hfail]
    exact marker_in_error_text e
  · unfold display_ai_decision_support
    rw [hs]
    simp
  · refine ⟨(pySplitNl t).headD "", collectReasons ((pySplitNl t).drop 1), ?_⟩
    unfold display_ai_decision_support
    rw [ht]
    simp

/-- C2 witness: a provider failure at a concrete input, one analysis string
with the marker rendered as an error, one without it rendered as a
success. -/
theorem C2_witness :
    pyContainsSub (generate_gemini_analysis providerFail sampleSnapshot []) "❌" = true ∧
    display_ai_decision_support "❌ Gemini Analysis Error: quota exceeded" =
      .errorShown "❌ Gemini Analysis Error: quota exceeded" ∧
    ∃ headline reasons,
      display_ai_decision_support "Buy\n- cheap" = .success headline reasons :=
  C2_failure_marker_dichotomy providerFail sampleSnapshot []
    "quota exceeded" "❌ Gemini Analysis Error: quota exceeded" "Buy\n- cheap"
    rfl (by decide) (by decide)

/-- C3: when the info lookup succeeds with a nonempty payload and the
recommendations lookup raises or returns an empty payload, fetch still
returns a snapshot whose recommendation history is the empty sequence; the
buildSnapshot hypothesis states that the rest of the dict construction raises
no exception. -/
theorem C3_recommendations_failure_graceful
    (ticker m : String) (env : Env) (histData : Hist) (info : Info)
    (news : List NewsItem) (snap : Snapshot)
    (h1 : env.histRes = .ok histData) (h2 : env.infoRes = .ok info)
    (h3 : info ≠ []) (h4 : env.recsRes = .error m ∨ env.recsRes = .ok [])
    (h5 : env.newsRes = .ok news)
    (h6 : buildSnapshot info histData news [] = .ok snap) :
    fetch_stock_data ticker env = .ok snap ∧ snap.recommendations = [] := by
  have hrecs : recsOf env = [] := by
    cases h4 with
    | inl h => unfold recsOf; rw [h]
    | inr h => unfold recsOf; rw [h]
  have hne := isEmpty_false_of_ne info h3
  constructor
  · unfold fetch_stock_data
    simp only [h1, h2, hne, h5, hrecs, h6]
    simp
  · rw [buildSnapshot_recs info histData news [] snap h6]
    rfl

/-- C3 witness: a concrete environment whose recommendations lookup raises;
fetch returns the expected snapshot with an empty recommendation history. -/
theorem C3_witness :
    fetch_stock_data "NVDA" envRecsFail = .ok snapRecsFail ∧
    snapRecsFail.recommendations = [] :=
  C3_recommendations_failure_graceful "NVDA" "recs unavailable" envRecsFail
    ["bar1"] infoGood [[("title", "Up")]] snapRecsFail
    rfl rfl (by decide) (Or.inl rfl) rfl (by rfl)

/-- C4: if the info lookup raises, fetch reports the info-fetch error and
returns no snapshot; if it returns the empty payload, fetch reports the
no-data error for the ticker and returns no snapshot. -/
theorem C4_info_failure_no_snapshot (ticker e : String) (env : Env)
    (histData : Hist) (h1 : env.histRes = .ok histData) :
    (env.infoRes = .error e →
      fetch_stock_data ticker env = .error (.infoError e)) ∧
    (env.infoRes = .ok [] →
      fetch_stock_data ticker env = .error (.noData ticker)) := by
  constructor
  · intro h2
    unfold fetch_stock_data
    simp only [h1, h2]
  · intro h2
    unfold fetch_stock_data
    simp only [h1, h2]
    simp

/-- C4 witness: a concrete environment with an empty info payload. -/
theorem C4_witness :
    fetch_stock_data "ZZZZ" envEmptyInfo = .error (.noData "ZZZZ") :=
  (C4_info_failure_no_snapshot "ZZZZ" "boom" envEmptyInfo [] rfl).2 rfl

/-- C5: for every non-error response text, the rendering takes line 0 of the
newline split as the decision headline and the subsequent non-blank lines, in
order and stripped, as the reasons; blank lines are excluded and the headline
content is not validated. -/
theorem C5_verdict_parsing (text : String)
    (h : pyContainsSub text "❌" = false) :
    display_ai_decision_support text =
      .success ((pySplitNl text).headD "")
        ((((pySplitNl text).drop 1).filter (fun l => pyStrip l != "")).map pyStrip) := by
  unfold display_ai_decision_support
  rw [h]
  simp [collectReasons_eq]

/-- C5 witness: the spec example response parses to the headline Buy and the
two reason lines, in order. -/
theorem C5_witness :
    display_ai_decision_support "Buy\n- reason one\n- reason two" =
      .success "Buy" ["- reason one", "- reason two"] := by
  rw [C5_verdict_parsing "Buy\n- reason one\n- reason two" (by decide)]
  decide

/-- C6: a truthy float dividend-yield (or ROE) value q is formatted as q
times 100 rendered with the two-decimal fixed-point spec followed by a
percent sign; an absent value formats to N/A; the raw value 0.0123 formats to
the string 1.23 percent. -/
theorem C6_percentage_formatting (q : ℚ) (hq : q.num ≠ 0) :
    pctStr (some (.float q)) = .ok (pyFixed2Times100 q ++ "%") ∧
    pctStr none = .ok "N/A" ∧
    pctStr (some (.float rawDY)) = .ok "1.23%" := by
  refine ⟨?_, rfl, by rfl⟩
  unfold pctStr
  simp [PyVal.truthy, hq]

/-- C6 witness: the general formatting rule applied at the concrete raw value
0.0123. -/
theorem C6_witness :
    pctStr (some (.float rawDY)) = .ok (pyFixed2Times100 rawDY ++ "%") ∧
    pctStr none = .ok "N/A" ∧
    pctStr (some (.float rawDY)) = .ok "1.23%" :=
  C6_percentage_formatting rawDY (by decide)

/-- C7: a present integer market cap n is formatted as a dollar sign followed
by the thousands-separated rendering of n; the raw value 123456789 formats to
the spec example string. -/
theorem C7_market_cap_formatting (info : Info) (n : ℤ)
    (h : lookupInfo info "marketCap" = some (.int n)) :
    marketCapStr info = .ok ("$" ++ intComma n) ∧
    marketCapStr [("marketCap", PyVal.int 123456789)] = .ok "$123,456,789" := by
  refine ⟨?_, by rfl⟩
  unfold marketCapStr getValD
  rw [h]
  rfl

/-- C7 witness: the formatting rule applied at the concrete raw value
123456789. -/
theorem C7_witness :
    marketCapStr [("marketCap", PyVal.int 123456789)] =
      .ok ("$" ++ intComma 123456789) ∧
    marketCapStr [("marketCap", PyVal.int 123456789)] = .ok "$123,456,789" :=
  C7_market_cap_formatting [("marketCap", PyVal.int 123456789)] 123456789 rfl

/-- C8: the recommendation history keeps all rows when there are at most
five, and for more than five rows it is exactly the final five, in the
original order (the rows before it, concatenated with it, give back the whole
series); eight concrete rows truncate to the last five. -/
theorem C8_recommendations_tail (recs : List RecRow) :
    (recs.length ≤ 5 → recommendationsField recs = recs) ∧
    (5 < recs.length →
      (recommendationsField recs).length = 5 ∧
      recs.take (recs.length - 5) ++ recommendationsField recs = recs) ∧
    recommendationsField recs8 = ["r4", "r5", "r6", "r7", "r8"] := by
  have hfield : recommendationsField recs = recs.drop (recs.length - 5) := by
    cases recs with
    | nil => rfl
    | cons a l => rfl
  refine ⟨?_, ?_, by rfl⟩
  · intro h
    rw [hfield, Nat.sub_eq_zero_of_le h]
    rfl
  · intro h
    refine ⟨?_, ?_⟩
    · rw [hfield, List.length_drop]
      omega
    · rw [hfield]
      exact List.take_append_drop _ _

/-- C8 witness: the truncation property applied at the concrete eight-row
series. -/
theorem C8_witness :
    (recommendationsField recs8).length = 5 ∧
    recs8.take (recs8.length - 5) ++ recommendationsField recs8 = recs8 :=
  (C8_recommendations_tail recs8).2.1 (by decide)

/-- C9: after the info check has passed, any exception not handled by a more
specific rule, whether raised by the news search or by the dict construction,
is converted into the single generic unexpected-error report and fetch
returns no snapshot. -/
theorem C9_unexpected_aborts (ticker m : String) (env : Env)
    (histData : Hist) (info : Info)
    (h1 : env.histRes = .ok histData) (h2 : env.infoRes = .ok info)
    (h3 : info ≠ []) :
    (env.newsRes = .error m →
      fetch_stock_data ticker env = .error (.unexpected m)) ∧
    (∀ news e, env.newsRes = .ok news →
      buildSnapshot info histData news (recsOf env) = .error e →
      fetch_stock_data ticker env = .error (.unexpected e)) := by
  have hne := isEmpty_false_of_ne info h3
  constructor
  · intro h4
    unfold fetch_stock_data
    simp only [h1, h2, hne, h4]
    simp
  · intro news e h4 h5
    unfold fetch_stock_data
    simp only [h1, h2, hne, h4, h5]
    simp

/-- C9 witness: a concrete environment whose news search raises. -/
theorem C9_witness :
    fetch_stock_data "NVDA" envNewsFail =
      .error (.unexpected "search provider down") :=
  (C9_unexpected_aborts "NVDA" "search provider down" envNewsFail [] infoGood
    rfl rfl (by decide)).1 rfl

/-- C10: a dividend-yield (or ROE) value present in the payload with the
exact raw value 0.0 formats to N/A, because the guard is the truthiness of
the value, not its presence; the truthy branch would have produced the string
0.00 percent instead. -/
theorem C10_zero_yield_formats_NA :
    pctField [("dividendYield", PyVal.float 0)] "dividendYield" = .ok "N/A" ∧
    pctField [("returnOnEquity", PyVal.float 0)] "returnOnEquity" = .ok "N/A" ∧
    pyFixed2Times100 0 ++ "%" = "0.00%" := by
  exact ⟨rfl, rfl, by rfl⟩

end StockApp
